import Mathlib

/-!
Verification of the gradient-descent optimizer in
src/lib/ml/optimizer/gradient_descent_optimizer.py, together with the
activation-function library in src/lib/util/activation_function.py.

Shallow embedding conventions:
- numpy arrays (ArrayLike) are rational matrices, represented as lists of rows;
- Python runtime failures (IndexError, AttributeError, UnboundLocalError,
  TypeError, KeyError) are made explicit through an error type and Except;
- Python dicts are association lists where assignment replaces an existing
  key in place and otherwise appends, matching dict insertion order;
- an attribute that is only annotated on the class but never assigned
  (such as the optimizer field holding the velocities) is an Option that
  starts out none; reading it while none is an AttributeError.
-/

namespace GradientDescent

abbrev Vec : Type := List ℚ
abbrev Mat : Type := List Vec

/-- Elementwise scalar multiplication of a row (numpy scalar times array). -/
def vsmul (c : ℚ) (v : Vec) : Vec := v.map (fun x => c * x)

/-- Elementwise sum of two rows (numpy elementwise add on equal shapes). -/
def vadd (u v : Vec) : Vec := List.zipWith (fun a b => a + b) u v

/-- Scalar times matrix, elementwise. -/
def smul (c : ℚ) (A : Mat) : Mat := A.map (vsmul c)

/-- Matrix addition, elementwise. -/
def madd (A B : Mat) : Mat := List.zipWith vadd A B

/-- Matrix subtraction, elementwise (numpy in-place subtraction target). -/
def msub (A B : Mat) : Mat := List.zipWith (List.zipWith (fun a b => a - b)) A B

/-- numpy transpose of a 2-d array. -/
def transpose (A : Mat) : Mat :=
  (List.range (A.headD []).length).map (fun j => A.map (fun r => r.getD j 0))

/-- numpy matrix product np.dot on 2-d arrays. -/
def matDot (A B : Mat) : Mat :=
  A.map (fun r => (transpose B).map (fun c => (List.zipWith (fun a b => a * b) r c).sum))

/-- Division of every entry by a scalar (numpy array divided by m). -/
def sdiv (A : Mat) (c : ℚ) : Mat := A.map (fun r => r.map (fun x => x / c))

/-- np.mean along axis 1 with keepdims: per-row mean as a column vector. -/
def meanAxis1 (A : Mat) : Mat := A.map (fun r => [r.sum / (r.length : ℚ)])

/-- Broadcasting addition of a column vector to every column of a matrix. -/
def addBroadcast (A b : Mat) : Mat :=
  List.zipWith (fun ra rb => ra.map (fun x => x + rb.headD 0)) A b

/-- numpy shape of a 2-d array: (rows, cols). -/
def np_shape (A : Mat) : Nat × Nat := (A.length, (A.headD []).length)

/-- np.zeros of a given 2-d shape. -/
def np_zeros (s : Nat × Nat) : Mat := List.replicate s.1 (List.replicate s.2 (0 : ℚ))

/-- np.ones of a given 2-d shape. -/
def np_ones (s : Nat × Nat) : Mat := List.replicate s.1 (List.replicate s.2 (1 : ℚ))

/-- Two matrices have the same list-of-rows shape. -/
def sameShape : Mat → Mat → Bool
  | [], [] => true
  | r :: A, s :: B => (r.length == s.length) && sameShape A B
  | _, _ => false

/-- Every entry of the matrix is zero. -/
def isZeroMat (A : Mat) : Bool := A.all (fun r => r.all (fun x => x == 0))

/-- Python dict assignment d[k] = v: replace an existing key in place,
otherwise append the new key (dict insertion order). -/
def dictInsert {α β : Type} [BEq α] (k : α) (v : β) : List (α × β) → List (α × β)
  | [] => [(k, v)]
  | (k₀, v₀) :: rest =>
    if k₀ == k then (k, v) :: rest else (k₀, v₀) :: dictInsert k v rest

/-- Python dict lookup d[k] (a missing key is a KeyError at the call site). -/
def dictGet {α β : Type} [BEq α] (k : α) : List (α × β) → Option β
  | [] => none
  | (k₀, v₀) :: rest => if k₀ == k then some v₀ else dictGet k rest

/-- The parameter-name key for weight velocities. -/
def dwKey : String := "dw"

/-- The parameter-name key for bias velocities. -/
def dbKey : String := "db"

/-- Modelled from the spec: the activation-function collaborator of §2/§6
(the abstract class lives in src/lib/util/activation_function.py): apply and
apply_derivative, elementwise, same shape in and out. -/
structure ActivationFunction : Type where
  apply : Mat → Mat
  apply_derivative : Mat → Mat

/-- The Linear activation from src/lib/util/activation_function.py:
apply returns z, apply_derivative returns np.ones(z.shape). -/
def LINEAR_ACTIVATION : ActivationFunction where
  apply := fun z => z
  apply_derivative := fun z => np_ones (np_shape z)

/-- The Relu activation from src/lib/util/activation_function.py:
apply is (z gt 0) * z, apply_derivative is the boolean mask z gt 0
(read numerically as 1 and 0). -/
def RELU_ACTIVATION : ActivationFunction where
  apply := fun z => z.map (fun r => r.map (fun x => if 0 < x then x else 0))
  apply_derivative := fun z => z.map (fun r => r.map (fun x => if 0 < x then 1 else 0))

/-- Modelled from the spec: the loss-function collaborator of §6
(lib/ml/util/loss_function.py is outside src): apply returns a scalar,
apply_derivative an array shaped like y_pred. -/
structure LossFunction : Type where
  apply : Mat → Mat → ℚ
  apply_derivative : Mat → Mat → Mat

/-- Modelled from the spec: the layer variants of the data model (§3);
the classes live in lib/ml/layer/actual_layer.py, outside src. -/
inductive Layer : Type
  | weightLayer (weight : Mat)
  | biasedWeightLayer (weight : Mat) (bias : Mat)
  | activationLayer (f : ActivationFunction)
  | reshapeLayer (apply : Mat → Mat)
  | compositeLayer (values : List Layer)

/-- Modelled from the spec: the per-step result record of §3
(lib/ml/optimizer/nn_optimizer.py is outside src): the layer graph
reference and the scalar loss. -/
structure OptimalResult : Type where
  layer : Layer
  loss : ℚ

/-- The Python runtime errors the optimizer code can raise. -/
inductive PyErr : Type
  | indexError
  | attributeError
  | unboundLocalError
  | typeError
  | keyError
deriving DecidableEq

/-- The dynamically-typed value passed as loss_fun into __optimize_deep:
line 37 of gradient_descent_optimizer.py rebinds the loss parameter to the
int 0, so the traversal receives an int, not a LossFunction. -/
inductive LossArg : Type
  | intVal (n : ℤ)
  | fn (f : LossFunction)

/-- Calling apply_derivative on the loss argument: an int has no such
attribute, so the int case is an AttributeError. -/
def LossArg.apply_derivative : LossArg → Mat → Mat → Except PyErr Mat
  | .intVal _, _, _ => .error .attributeError
  | .fn f, y, a => .ok (f.apply_derivative y a)

/-- Calling apply on the loss argument; the int case is an AttributeError. -/
def LossArg.apply : LossArg → Mat → Mat → Except PyErr ℚ
  | .intVal _, _, _ => .error .attributeError
  | .fn f, y, a => .ok (f.apply y a)

/-- The velocity store: a dict from layer index to a dict from parameter
name to an accumulator array. -/
abbrev Velocities : Type := List (Nat × List (String × Mat))

/-- The optimizer state (gradient_descent_optimizer.py lines 20-28).
target and velocities are class-level annotations with no assignment in
the constructor, so both start out none; in particular velocities is
never assigned anywhere in the class. -/
structure GradientDescentOptimizer : Type where
  learning_rate : ℚ
  momentum : ℚ
  target : Option Layer
  velocities : Option Velocities

/-- The constructor (lines 26-28): stores the learning rate and momentum
and nothing else. -/
def GradientDescentOptimizer.init (learning_rate : ℚ) (momentum : ℚ) :
    GradientDescentOptimizer :=
  { learning_rate := learning_rate, momentum := momentum,
    target := none, velocities := none }

mutual

/-- __init_velocity (lines 120-133): recurse into composites giving each
child its 0-based position; for weighted layers write a zero entry into
self.__velocities under the current index. Since __velocities is never
assigned, reading it to perform the item assignment raises AttributeError
whenever a weighted layer is reached. -/
def init_velocity (o : GradientDescentOptimizer) :
    Layer → Nat → Except PyErr GradientDescentOptimizer
  | .compositeLayer values, _ => init_velocity_children o values 0
  | .biasedWeightLayer weight bias, id =>
    match o.velocities with
    | none => .error .attributeError
    | some vs =>
      let entry := [(dwKey, np_zeros (np_shape weight)), (dbKey, np_zeros (np_shape bias))]
      .ok { o with velocities := some (dictInsert id entry vs) }
  | .weightLayer weight, id =>
    match o.velocities with
    | none => .error .attributeError
    | some vs =>
      let entry := [(dwKey, np_zeros (np_shape weight))]
      .ok { o with velocities := some (dictInsert id entry vs) }
  | .activationLayer _, _ => .ok o
  | .reshapeLayer _, _ => .ok o

/-- The loop over a composite's children in __init_velocity (lines 123-124):
for i in range(len(values)): self.__init_velocity(values[i], i). -/
def init_velocity_children (o : GradientDescentOptimizer) :
    List Layer → Nat → Except PyErr GradientDescentOptimizer
  | [], _ => .ok o
  | l :: rest, i =>
    match init_velocity o l i with
    | .error e => .error e
    | .ok o₁ => init_velocity_children o₁ rest (i + 1)

end

/-- __calculate_velocity (lines 135-136):
momentum * d_velocity + (1 - momentum) * d. -/
def calculate_velocity (o : GradientDescentOptimizer) (d d_velocity : Mat) : Mat :=
  madd (smul o.momentum d_velocity) (smul (1 - o.momentum) d)

/-- prepare (lines 30-32): call the supplier once, retain the result as
the target, then run __init_velocity on it (default index 0). -/
def prepare (o : GradientDescentOptimizer) (params_supplier : Unit → Layer) :
    Except PyErr GradientDescentOptimizer :=
  let t := params_supplier ()
  init_velocity { o with target := some t } t 0

/-- optimize_recursively (lines 54-114), the closure inside __optimize_deep.
State threading makes the in-place mutations explicit: the result carries
the optimizer state (velocities), the mutated layer list, the gradient and
the loss. Faithful to the source:
- the base case (lines 57-61) calls apply_derivative and then apply on
  loss_fun, which optimize passes as the int 0;
- the dispatch (line 63) matches layers[layer_num + 1], one past the layer
  being processed; an out-of-range index is an IndexError;
- the weighted branches read self.__velocities (AttributeError when it was
  never assigned) and then index it by layer_num (KeyError when missing);
- the activation branch (line 104) reads the local z, which is never
  assigned on that path: UnboundLocalError;
- a composite child matches no case, the match falls through, the function
  returns None, and unpacking None at the call site is a TypeError. -/
def optimize_recursively (o : GradientDescentOptimizer) (y_true : Mat)
    (loss_fun : LossArg) (layers : List Layer) (layer_num : Nat) (a_prev : Mat) :
    Except PyErr (GradientDescentOptimizer × List Layer × Mat × ℚ) :=
  if h : layer_num ≥ layers.length then
    match loss_fun.apply_derivative y_true a_prev with
    | .error e => .error e
    | .ok da =>
      match loss_fun.apply y_true a_prev with
      | .error e => .error e
      | .ok loss => .ok (o, layers, da, loss)
  else
    match layers[layer_num + 1]? with
    | none => .error .indexError
    | some (.biasedWeightLayer weight bias) =>
      let z := addBroadcast (matDot weight a_prev) bias
      let m : ℚ := ((np_shape a_prev).2 : ℚ)
      match optimize_recursively o y_true loss_fun layers (layer_num + 1) z with
      | .error e => .error e
      | .ok (o₁, layers₁, dz, loss) =>
        let dw := sdiv (matDot dz (transpose a_prev)) m
        let db := meanAxis1 dz
        let da := matDot (transpose weight) dz
        match o₁.velocities with
        | none => .error .attributeError
        | some vs =>
          match dictGet layer_num vs with
          | none => .error .keyError
          | some velocity =>
            match dictGet dwKey velocity, dictGet dbKey velocity with
            | some vdw, some vdb =>
              let vdw₁ := calculate_velocity o₁ dw vdw
              let vdb₁ := calculate_velocity o₁ db vdb
              let velocity₁ := dictInsert dbKey vdb₁ (dictInsert dwKey vdw₁ velocity)
              let weight₁ := msub weight (smul o₁.learning_rate vdw₁)
              let bias₁ := msub bias (smul o₁.learning_rate vdb₁)
              .ok ({ o₁ with velocities := some (dictInsert layer_num velocity₁ vs) },
                layers₁.set (layer_num + 1) (.biasedWeightLayer weight₁ bias₁), da, loss)
            | _, _ => .error .keyError
    | some (.weightLayer weight) =>
      let z := matDot weight a_prev
      let m : ℚ := ((np_shape a_prev).2 : ℚ)
      match optimize_recursively o y_true loss_fun layers (layer_num + 1) z with
      | .error e => .error e
      | .ok (o₁, layers₁, dz, loss) =>
        let dw := sdiv (matDot dz (transpose a_prev)) m
        let da := matDot (transpose weight) dz
        match o₁.velocities with
        | none => .error .attributeError
        | some vs =>
          match dictGet layer_num vs with
          | none => .error .keyError
          | some velocity =>
            match dictGet dwKey velocity with
            | none => .error .keyError
            | some vdw =>
              let vdw₁ := calculate_velocity o₁ dw vdw
              let velocity₁ := dictInsert dwKey vdw₁ velocity
              let weight₁ := msub weight (smul o₁.learning_rate vdw₁)
              .ok ({ o₁ with velocities := some (dictInsert layer_num velocity₁ vs) },
                layers₁.set (layer_num + 1) (.weightLayer weight₁), da, loss)
    | some (.activationLayer f) =>
      let a := f.apply a_prev
      match optimize_recursively o y_true loss_fun layers (layer_num + 1) a with
      | .error e => .error e
      | .ok _ => .error .unboundLocalError
    | some (.reshapeLayer t) =>
      let a := t a_prev
      match optimize_recursively o y_true loss_fun layers (layer_num + 1) a with
      | .error e => .error e
      | .ok (o₁, layers₁, da_next, loss) => .ok (o₁, layers₁, t da_next, loss)
    | some (.compositeLayer _) => .error .typeError
termination_by layers.length - layer_num
decreasing_by all_goals omega

/-- __optimize_deep (lines 47-53 and 116-118): run the recursion from
index 0 on the input, discard the gradient, return the loss (together
with the threaded state). -/
def optimize_deep (o : GradientDescentOptimizer) (layers : List Layer)
    (x y_true : Mat) (loss_fun : LossArg) :
    Except PyErr (GradientDescentOptimizer × List Layer × ℚ) :=
  match optimize_recursively o y_true loss_fun layers 0 x with
  | .error e => .error e
  | .ok (o₁, layers₁, _, loss) => .ok (o₁, layers₁, loss)

/-- optimize (lines 34-45). Line 37 rebinds the loss parameter to the
int 0 before it is ever used, so the traversal receives LossArg.intVal 0
and the caller-supplied LossFunction is discarded. Reading self.__target
before prepare is an AttributeError. -/
def optimize (o : GradientDescentOptimizer) (epoch : ℤ) (x y_true : Mat)
    (loss : LossFunction) : Except PyErr (GradientDescentOptimizer × OptimalResult) :=
  let loss₀ : LossArg := .intVal 0
  match o.target with
  | none => .error .attributeError
  | some (.compositeLayer values) =>
    match optimize_deep o values x y_true loss₀ with
    | .error e => .error e
    | .ok (o₁, layers₁, l) =>
      let t := Layer.compositeLayer layers₁
      .ok ({ o₁ with target := some t }, { layer := t, loss := l })
  | some it =>
    match optimize_deep o [it] x y_true loss₀ with
    | .error e => .error e
    | .ok (o₁, layers₁, l) =>
      let t := layers₁.headD it
      .ok ({ o₁ with target := some t }, { layer := t, loss := l })

/-- Modelled from the spec: the mean-squared-error loss of the §8 concrete
scenario, apply = (y_pred - y_true) squared (scalar on the 1 by 1 arrays of
the scenario), apply_derivative = 2 (y_pred - y_true). -/
def mse_loss : LossFunction where
  apply := fun y_true y_pred => (((msub y_pred y_true).headD []).headD 0) ^ 2
  apply_derivative := fun y_true y_pred => smul 2 (msub y_pred y_true)

mutual

/-- The layer graph contains a weighted (trainable) layer, directly or
inside a composite. -/
def containsWeighted : Layer → Bool
  | .weightLayer _ => true
  | .biasedWeightLayer _ _ => true
  | .activationLayer _ => false
  | .reshapeLayer _ => false
  | .compositeLayer values => containsWeightedList values

/-- Some layer in the list contains a weighted layer. -/
def containsWeightedList : List Layer → Bool
  | [] => false
  | l :: rest => containsWeighted l || containsWeightedList rest

end

/-- Rows of equal length: adding the zero-scaled row to the one-scaled row
gives back the second row. -/
theorem vadd_vsmul_zero_one (u v : Vec) (h : u.length = v.length) :
    vadd (vsmul 0 u) (vsmul 1 v) = v := by
  induction u generalizing v with
  | nil =>
    cases v with
    | nil => rfl
    | cons b bs => simp at h
  | cons a as ih =>
    cases v with
    | nil => simp at h
    | cons b bs =>
      have h₂ : as.length = bs.length := by simpa using h
      show ((0 : ℚ) * a + 1 * b) :: vadd (vsmul 0 as) (vsmul 1 bs) = b :: bs
      rw [ih bs h₂]
      norm_num

/-- Matrices of the same shape: the zero-momentum combination collapses to
the second matrix. -/
theorem madd_smul_zero_one (A B : Mat) (h : sameShape A B = true) :
    madd (smul 0 A) (smul 1 B) = B := by
  induction A generalizing B with
  | nil =>
    cases B with
    | nil => rfl
    | cons s S => simp [sameShape] at h
  | cons r R ih =>
    cases B with
    | nil => simp [sameShape] at h
    | cons s S =>
      simp only [sameShape, Bool.and_eq_true, beq_iff_eq] at h
      obtain ⟨h₁, h₂⟩ := h
      show vadd (vsmul 0 r) (vsmul 1 s) :: madd (smul 0 R) (smul 1 S) = s :: S
      rw [vadd_vsmul_zero_one r s h₁, ih S h₂]

/-- Row-level momentum accumulation over two steps starting from a zero row. -/
theorem vec_momentum_accum (β : ℚ) (z d₁ d₂ : Vec) (hz : z.length = d₁.length)
    (hd : d₁.length = d₂.length) (h0 : z.all (fun x => x == 0) = true) :
    vadd (vsmul β (vadd (vsmul β z) (vsmul (1 - β) d₁))) (vsmul (1 - β) d₂) =
      vadd (vsmul (β * (1 - β)) d₁) (vsmul (1 - β) d₂) := by
  induction z generalizing d₁ d₂ with
  | nil =>
    cases d₁ with
    | nil =>
      cases d₂ with
      | nil => rfl
      | cons c cs => simp at hd
    | cons b bs => simp at hz
  | cons a as ih =>
    cases d₁ with
    | nil => simp at hz
    | cons b bs =>
      cases d₂ with
      | nil => simp at hd
      | cons c cs =>
        simp only [List.all_cons, Bool.and_eq_true, beq_iff_eq] at h0
        obtain ⟨ha, h0'⟩ := h0
        have hz' : as.length = bs.length := by simpa using hz
        have hd' : bs.length = cs.length := by simpa using hd
        show (β * (β * a + (1 - β) * b) + (1 - β) * c) ::
            vadd (vsmul β (vadd (vsmul β as) (vsmul (1 - β) bs))) (vsmul (1 - β) cs) =
          (β * (1 - β) * b + (1 - β) * c) ::
            vadd (vsmul (β * (1 - β)) bs) (vsmul (1 - β) cs)
        rw [ha, ih bs cs hz' hd' h0']
        congr 1
        ring

/-- Matrix-level momentum accumulation over two steps starting from a zero
matrix of the right shape. -/
theorem mat_momentum_accum (β : ℚ) (v₀ d₁ d₂ : Mat) (hv : sameShape v₀ d₁ = true)
    (hd : sameShape d₁ d₂ = true) (h0 : isZeroMat v₀ = true) :
    madd (smul β (madd (smul β v₀) (smul (1 - β) d₁))) (smul (1 - β) d₂) =
      madd (smul (β * (1 - β)) d₁) (smul (1 - β) d₂) := by
  induction v₀ generalizing d₁ d₂ with
  | nil =>
    cases d₁ with
    | nil =>
      cases d₂ with
      | nil => rfl
      | cons c C => simp [sameShape] at hd
    | cons b B => simp [sameShape] at hv
  | cons a A ih =>
    cases d₁ with
    | nil => simp [sameShape] at hv
    | cons b B =>
      cases d₂ with
      | nil => simp [sameShape] at hd
      | cons c C =>
        simp only [sameShape, Bool.and_eq_true, beq_iff_eq] at hv hd
        simp only [isZeroMat, List.all_cons, Bool.and_eq_true] at h0
        obtain ⟨hv₁, hv₂⟩ := hv
        obtain ⟨hd₁, hd₂⟩ := hd
        obtain ⟨h0₁, h0₂⟩ := h0
        show vadd (vsmul β (vadd (vsmul β a) (vsmul (1 - β) b))) (vsmul (1 - β) c) ::
            madd (smul β (madd (smul β A) (smul (1 - β) B))) (smul (1 - β) C) =
          vadd (vsmul (β * (1 - β)) b) (vsmul (1 - β) c) ::
            madd (smul (β * (1 - β)) B) (smul (1 - β) C)
        rw [vec_momentum_accum β a b c hv₁ hd₁ h0₁, ih B C hv₂ hd₂ h0₂]

/-- C7: with momentum 0, __calculate_velocity returns exactly the gradient d
(for a previous velocity of the same shape), so the weight update
weight - learning_rate * velocity equals plain gradient descent
weight - learning_rate * d. -/
theorem c7_zero_momentum_reduction (o : GradientDescentOptimizer) (d v W : Mat)
    (h0 : o.momentum = 0) (hs : sameShape v d = true) :
    calculate_velocity o d v = d ∧
    msub W (smul o.learning_rate (calculate_velocity o d v)) =
      msub W (smul o.learning_rate d) := by
  have h₁ : calculate_velocity o d v = d := by
    unfold calculate_velocity
    rw [h0]
    norm_num
    exact madd_smul_zero_one v d hs
  exact ⟨h₁, by rw [h₁]⟩

/-- Witness for C7 at the concrete numbers of the §8 scenario:
d = 36, v = 0, W = 2, learning rate 1/10. -/
theorem c7_zero_momentum_reduction_witness :
    ((GradientDescentOptimizer.init (1/10) 0).momentum = 0 ∧
      sameShape [[0]] [[36]] = true) ∧
    calculate_velocity (GradientDescentOptimizer.init (1/10) 0) [[36]] [[0]] = [[36]] ∧
    msub [[2]] (smul (GradientDescentOptimizer.init (1/10) 0).learning_rate
        (calculate_velocity (GradientDescentOptimizer.init (1/10) 0) [[36]] [[0]])) =
      msub [[2]] (smul (GradientDescentOptimizer.init (1/10) 0).learning_rate [[36]]) :=
  ⟨⟨rfl, by decide⟩,
    c7_zero_momentum_reduction (GradientDescentOptimizer.init (1/10) 0)
      [[36]] [[0]] [[2]] rfl (by decide)⟩

/-- C8: with momentum β strictly between 0 and 1, two applications of
__calculate_velocity starting from a zero velocity yield
β (1 - β) dW₁ + (1 - β) dW₂ as the second effective velocity. -/
theorem c8_momentum_accumulation (o : GradientDescentOptimizer) (dW₁ dW₂ v₀ : Mat)
    (h₁ : 0 < o.momentum) (h₂ : o.momentum < 1)
    (hv : sameShape v₀ dW₁ = true) (hd : sameShape dW₁ dW₂ = true)
    (h0 : isZeroMat v₀ = true) :
    calculate_velocity o dW₂ (calculate_velocity o dW₁ v₀) =
      madd (smul (o.momentum * (1 - o.momentum)) dW₁)
        (smul (1 - o.momentum) dW₂) := by
  unfold calculate_velocity
  exact mat_momentum_accum o.momentum v₀ dW₁ dW₂ hv hd h0

/-- Witness for C8 at β = 1/2, dW₁ = 4, dW₂ = 8, zero start:
the result is (1/2)(1/2)·4 + (1/2)·8 = 5. -/
theorem c8_momentum_accumulation_witness :
    (0 < (GradientDescentOptimizer.init 1 (1/2)).momentum ∧
      (GradientDescentOptimizer.init 1 (1/2)).momentum < 1 ∧
      sameShape [[0]] [[4]] = true ∧ sameShape [[4]] [[8]] = true ∧
      isZeroMat [[0]] = true) ∧
    calculate_velocity (GradientDescentOptimizer.init 1 (1/2)) [[8]]
        (calculate_velocity (GradientDescentOptimizer.init 1 (1/2)) [[4]] [[0]]) =
      madd (smul ((GradientDescentOptimizer.init 1 (1/2)).momentum *
          (1 - (GradientDescentOptimizer.init 1 (1/2)).momentum)) [[4]])
        (smul (1 - (GradientDescentOptimizer.init 1 (1/2)).momentum) [[8]]) :=
  ⟨⟨by norm_num [GradientDescentOptimizer.init], by norm_num [GradientDescentOptimizer.init],
      by decide, by decide, by decide⟩,
    c8_momentum_accumulation (GradientDescentOptimizer.init 1 (1/2)) [[4]] [[8]] [[0]]
      (by norm_num [GradientDescentOptimizer.init])
      (by norm_num [GradientDescentOptimizer.init])
      (by decide) (by decide) (by decide)⟩

/-- C9: the epoch argument of optimize never influences the result: the
body of optimize (lines 34-45) does not read epoch, so any two epoch
values give identical results, updates included. -/
theorem c9_epoch_informational (o : GradientDescentOptimizer) (e₁ e₂ : ℤ)
    (x y_true : Mat) (loss : LossFunction) :
    optimize o e₁ x y_true loss = optimize o e₂ x y_true loss := rfl

mutual

/-- When the velocity attribute was never assigned (none), __init_velocity
raises AttributeError as soon as it reaches a weighted layer, and returns
the state unchanged when the graph contains none. -/
theorem init_velocity_none (l : Layer) (o : GradientDescentOptimizer) (i : Nat)
    (h : o.velocities = none) :
    (containsWeighted l = true → init_velocity o l i = .error .attributeError) ∧
    (containsWeighted l = false → init_velocity o l i = .ok o) := by
  cases l with
  | weightLayer w =>
    refine ⟨fun _ => ?_, fun hf => ?_⟩
    · simp [init_velocity, h]
    · simp [containsWeighted] at hf
  | biasedWeightLayer w b =>
    refine ⟨fun _ => ?_, fun hf => ?_⟩
    · simp [init_velocity, h]
    · simp [containsWeighted] at hf
  | activationLayer f =>
    refine ⟨fun ht => ?_, fun _ => ?_⟩
    · simp [containsWeighted] at ht
    · simp [init_velocity]
  | reshapeLayer t =>
    refine ⟨fun ht => ?_, fun _ => ?_⟩
    · simp [containsWeighted] at ht
    · simp [init_velocity]
  | compositeLayer values =>
    have hrec := init_velocity_children_none values o 0 h
    refine ⟨fun ht => ?_, fun hf => ?_⟩
    · simp only [containsWeighted] at ht
      simp only [init_velocity]
      exact hrec.1 ht
    · simp only [containsWeighted] at hf
      simp only [init_velocity]
      exact hrec.2 hf

/-- The child loop of __init_velocity under an unassigned velocity
attribute: errors at the first weighted descendant, otherwise a no-op. -/
theorem init_velocity_children_none (ls : List Layer) (o : GradientDescentOptimizer)
    (i : Nat) (h : o.velocities = none) :
    (containsWeightedList ls = true →
      init_velocity_children o ls i = .error .attributeError) ∧
    (containsWeightedList ls = false → init_velocity_children o ls i = .ok o) := by
  cases ls with
  | nil =>
    refine ⟨fun ht => ?_, fun _ => ?_⟩
    · simp [containsWeightedList] at ht
    · simp [init_velocity_children]
  | cons l rest =>
    have hl := init_velocity_none l o i h
    refine ⟨fun ht => ?_, fun hf => ?_⟩
    · cases hcw : containsWeighted l with
      | true =>
        simp only [init_velocity_children]
        rw [hl.1 hcw]
      | false =>
        simp only [containsWeightedList, hcw, Bool.false_or] at ht
        simp only [init_velocity_children]
        rw [hl.2 hcw]
        exact (init_velocity_children_none rest o (i + 1) h).1 ht
    · simp only [containsWeightedList, Bool.or_eq_false_iff] at hf
      obtain ⟨hf₁, hf₂⟩ := hf
      simp only [init_velocity_children]
      rw [hl.2 hf₁]
      exact (init_velocity_children_none rest o (i + 1) h).2 hf₂

end

/-- C10: on a freshly constructed optimizer, the very first prepare raises
AttributeError whenever the supplied layer graph contains a weighted layer,
because the velocity mapping is written before it is ever created. -/
theorem c10_first_prepare_raises (lr m : ℚ) (s : Unit → Layer)
    (h : containsWeighted (s ()) = true) :
    prepare (GradientDescentOptimizer.init lr m) s = .error .attributeError := by
  have hmain := (init_velocity_none (s ())
    { GradientDescentOptimizer.init lr m with target := some (s ()) } 0 rfl).1 h
  simpa [prepare] using hmain

/-- Witness for C10: a supplier returning a bare weight layer. -/
theorem c10_first_prepare_raises_witness :
    containsWeighted ((fun _ => Layer.weightLayer [[2]]) ()) = true ∧
    prepare (GradientDescentOptimizer.init (1/10) 0)
        (fun _ => Layer.weightLayer [[2]]) = .error .attributeError :=
  ⟨by simp [containsWeighted],
    c10_first_prepare_raises (1/10) 0 (fun _ => Layer.weightLayer [[2]])
      (by simp [containsWeighted])⟩

/-- C1: the §8 concrete scenario (W = [[2]], x = [[3]], y_true = [[0]],
mean-squared-error, learning rate 1/10, momentum 0) does not return loss 36
with weight [[-1.6]]: preparing the optimizer already raises AttributeError
(the velocity dict is never created), and even on a state with the target
and a zero velocity entry in place, optimize raises IndexError because the
traversal matches layers[layer_num + 1] and runs past the end of the
one-element layer list. -/
theorem c1_concrete_scenario_crashes :
    prepare (GradientDescentOptimizer.init (1/10) 0)
        (fun _ => Layer.weightLayer [[2]]) = .error .attributeError ∧
    optimize
      { learning_rate := 1/10, momentum := 0,
        target := some (Layer.weightLayer [[2]]),
        velocities := some [(0, [(dwKey, [[0]])])] }
      1 [[3]] [[0]] mse_loss = .error .indexError := by
  constructor
  · simp [prepare, init_velocity, GradientDescentOptimizer.init]
  · simp [optimize, optimize_deep, optimize_recursively]

/-- C2: the base case never uses the caller-supplied loss function: line 37
rebinds the loss parameter to the int 0, so on the one target for which the
base case is reachable (an empty composite) the whole call raises
AttributeError on the int instead of computing the loss. -/
theorem c2_loss_function_discarded :
    (prepare (GradientDescentOptimizer.init (1/10) 0)
        (fun _ => Layer.compositeLayer [])).bind
      (fun o₁ => optimize o₁ 1 [[3]] [[0]] mse_loss) = .error .attributeError := by
  simp [prepare, init_velocity, init_velocity_children, optimize, optimize_deep,
    optimize_recursively, LossArg.apply_derivative, Except.bind,
    GradientDescentOptimizer.init]

/-- C3: on a flat composite of two weight layers (with the velocity store
as §4.1 would have populated it, entries 0 and 1 zero-shaped like the
respective layers), optimize raises IndexError: the traversal matches
layers[layer_num + 1], so position 0 processes layer 1 while reading
velocity key 0, layer 0 is never processed, and the final step indexes one
past the end of the list. -/
theorem c3_index_mismatch_crashes :
    optimize
      { learning_rate := 1/10, momentum := 0,
        target := some (Layer.compositeLayer
          [Layer.weightLayer [[2]], Layer.weightLayer [[3]]]),
        velocities := some [(0, [(dwKey, [[0]])]), (1, [(dwKey, [[0]])])] }
      1 [[3]] [[0]] mse_loss = .error .indexError := by
  simp [optimize, optimize_deep, optimize_recursively]

/-- C4: on a composite whose traversal enters the activation branch, the
call still raises IndexError from the off-by-one before the backward line
runs; the backward line itself (line 104) reads the local z, which is never
assigned in the activation branch, so it could only ever raise
UnboundLocalError, never compute the derivative at the input a. -/
theorem c4_activation_branch_crashes :
    optimize
      { learning_rate := 1/10, momentum := 0,
        target := some (Layer.compositeLayer
          [Layer.activationLayer RELU_ACTIVATION,
           Layer.activationLayer RELU_ACTIVATION]),
        velocities := some [] }
      1 [[3]] [[0]] mse_loss = .error .indexError := by
  simp [optimize, optimize_deep, optimize_recursively]

/-- C5: prepare does not succeed and populate the velocity store: with any
weighted child it raises AttributeError (the store is never created), and
with only stateless children it succeeds while still never creating the
store. -/
theorem c5_prepare_never_populates :
    prepare (GradientDescentOptimizer.init (1/10) 0)
        (fun _ => Layer.compositeLayer
          [Layer.biasedWeightLayer [[1]] [[0]], Layer.weightLayer [[2]]]) =
      .error .attributeError ∧
    prepare (GradientDescentOptimizer.init (1/10) 0)
        (fun _ => Layer.compositeLayer [Layer.activationLayer RELU_ACTIVATION]) =
      .ok { learning_rate := 1/10, momentum := 0,
            target := some (Layer.compositeLayer
              [Layer.activationLayer RELU_ACTIVATION]),
            velocities := none } := by
  constructor
  · simp [prepare, init_velocity, init_velocity_children, GradientDescentOptimizer.init]
  · simp [prepare, init_velocity, init_velocity_children, GradientDescentOptimizer.init]

/-- C6: re-preparation does not replace the velocity store. A first prepare
on a fresh optimizer raises AttributeError, so the claimed two-prepare
sequence is impossible; and even started from a state whose store already
holds an entry under key 1 (as a previous graph would have left), preparing
a new single-weight-layer graph only adds its own key 0 and leaves the
stale entry 1 in place. -/
theorem c6_reprepare_keeps_stale_entries :
    prepare (GradientDescentOptimizer.init (1/10) 0)
        (fun _ => Layer.weightLayer [[2]]) = .error .attributeError ∧
    prepare
      { learning_rate := 1/10, momentum := 0, target := none,
        velocities := some [(1, [(dwKey, [[0, 0]])])] }
      (fun _ => Layer.weightLayer [[5]]) =
      .ok { learning_rate := 1/10, momentum := 0,
            target := some (Layer.weightLayer [[5]]),
            velocities := some [(1, [(dwKey, [[0, 0]])]),
                                (0, [(dwKey, [[0]])])] } := by
  constructor
  · simp [prepare, init_velocity, GradientDescentOptimizer.init]
  · simp [prepare, init_velocity, dictInsert, np_zeros, np_shape,
      List.replicate]

end GradientDescent
